import Mathlib

/-!
Verification development for the AI-Recruitment-Agency repository.

The repository glues a resume RAG pipeline (src/RAG.py) to Gmail sending
(src/email_candidate.py) and Google-Calendar scheduling
(src/meeting_scheduler.py).  External services (vector store, embedding
model, language model, Google APIs, file parsers) are modelled as explicit
function parameters (oracles); the control flow around them is translated
from the Python source.
-/

/-- A loaded langchain Document: the source file it came from and its
extracted text (page_content). -/
structure Document where
  source : String
  page_content : String
deriving DecidableEq

/-- Outcome of running the selected loader on one file: the list of
documents it produced, or the exception message it raised. -/
inductive LoadOutcome where
  | ok (docs : List Document)
  | err (msg : String)
deriving DecidableEq

/-- One entry of the input directory: its file name and what its loader
would return.  The loader behaviour is an oracle since PyPDFLoader and
Docx2txtLoader are external libraries. -/
structure FileEntry where
  filename : String
  outcome : LoadOutcome
deriving DecidableEq

/-- Python str.endswith, on the character lists of the strings. -/
def endswith (s suffix : String) : Bool :=
  suffix.toList.isSuffixOf s.toList

/-- A file name the loader recognises: it ends with .pdf or .docx
(RAG.py lines 74-77). -/
def isSupportedFile (filename : String) : Bool :=
  endswith filename ".pdf" || endswith filename ".docx"

/-- One iteration of the loading loop in ResumeRAG._load_documents_from_folder
(RAG.py lines 71-85): pick a loader by extension, or log a skip notice;
a loader exception is caught and logged.  Returns the documents added and
the lines printed. -/
def processEntry (e : FileEntry) : List Document × List String :=
  if endswith e.filename ".pdf" then
    match e.outcome with
    | .ok ds => (ds, [])
    | .err m => ([], ["Error loading file " ++ e.filename ++ ": " ++ m])
  else if endswith e.filename ".docx" then
    match e.outcome with
    | .ok ds => (ds, [])
    | .err m => ([], ["Error loading file " ++ e.filename ++ ": " ++ m])
  else
    ([], ["Unsupported file type skipped: " ++ e.filename])

/-- ResumeRAG._load_documents_from_folder (RAG.py lines 68-86): fold the
loop over the directory listing, accumulating documents and printed lines
in order. -/
def load_documents_from_folder : List FileEntry → List Document × List String
  | [] => ([], [])
  | e :: rest =>
    ((processEntry e).1 ++ (load_documents_from_folder rest).1,
     (processEntry e).2 ++ (load_documents_from_folder rest).2)

/-- The documents of every successfully loaded supported file, in directory
order: the result the spec ascribes to the Document Loader.  Stated
separately from the translated code so the two can be compared. -/
def loadedDocsSpec : List FileEntry → List Document
  | [] => []
  | e :: rest =>
    (if isSupportedFile e.filename then
      match e.outcome with
      | .ok ds => ds
      | .err _ => []
    else []) ++ loadedDocsSpec rest

/-- Ceiling division on naturals. -/
def ceilDiv (a b : Nat) : Nat := (a + b - 1) / b

/-- Modelled from the spec: the Chunker of section 4.2.  The repository
calls RecursiveCharacterTextSplitter(chunk_size=1000, chunk_overlap=200),
whose implementation is an external library and not part of this
repository.  Modelled as the character-level sliding window the spec
describes: each chunk holds at most C characters, and the last O
characters of a chunk reappear at the head of the next chunk.  The first
argument is fuel, always instantiated with the text length, which bounds
the recursion depth since each step consumes at least C - O >= 1
characters when O < C. -/
def chunkTextGo : Nat → Nat → Nat → List Char → List (List Char)
  | 0, _, _, s => [s]
  | fuel + 1, C, O, s =>
    if s.length ≤ C ∨ C ≤ O then [s]
    else s.take C :: chunkTextGo fuel C O (s.drop (C - O))

/-- Modelled from the spec: chunk one text with chunk size C and overlap O
(section 4.2); see chunkTextGo. -/
def chunkText (C O : Nat) (s : List Char) : List (List Char) :=
  chunkTextGo s.length C O s

/-- A chunk: a bounded text span with a back-reference to its source
document. -/
structure Chunk where
  source : String
  text : String
deriving DecidableEq

/-- The splits produced for a list of documents with the default
chunk_size=1000, chunk_overlap=200 of RAG.py lines 46-51.  No chunk
crosses a document boundary. -/
def split_documents (docs : List Document) : List Chunk :=
  docs.flatMap fun d =>
    (chunkText 1000 200 d.page_content.toList).map fun l => ⟨d.source, String.mk l⟩

/-- The vector database contents: the indexed chunks.  Embedding vectors
are produced by an external model and play no role in the indexed-or-not
question. -/
structure VectorStore where
  chunks : List Chunk
deriving DecidableEq

/-- The error conditions of pipeline construction.  The source raises
ValueError with the message "No documents found in the specified folder."
(RAG.py line 43); the spec names this condition NoDocumentsFound. -/
inductive PipelineError where
  | NoDocumentsFound
deriving DecidableEq

/-- ResumeRAG._load_and_process_documents (RAG.py lines 33-66): load the
folder, fail if no documents were loaded, otherwise split and index.
ResumeRAG.__init__ calls this before anything else, so a failure here is a
failure of pipeline construction. -/
def load_and_process_documents (entries : List FileEntry) : Except PipelineError VectorStore :=
  let documents := (load_documents_from_folder entries).1
  if documents.isEmpty then
    Except.error PipelineError.NoDocumentsFound
  else
    Except.ok ⟨split_documents documents⟩

/-- The retrieval query string built by ResumeRAG.rate_candidate
(RAG.py lines 131-135): a natural-language description of the ideal
candidate synthesised from the criteria. -/
def retriever_query (required_experience_years : Nat) (required_skills_list : List String) : String :=
  "A candidate with at least " ++ toString required_experience_years ++
  " years of work experience and expertise in " ++
  String.intercalate ", " required_skills_list ++ "."

/-- The context string built by ResumeRAG.rate_candidate (RAG.py lines
137-141): the vector store retriever is invoked with search_kwargs
k = 5 on the synthesised query, and the page contents of the returned
documents are joined, in returned order, with blank lines.  The retriever
backend (Chroma) is an oracle parameter. -/
def rate_candidate_context (retrieve : String → Nat → List Document)
    (required_experience_years : Nat) (required_skills_list : List String) : String :=
  let query := retriever_query required_experience_years required_skills_list
  let relevant_docs := retrieve query 5
  String.intercalate "\n\n" (relevant_docs.map Document.page_content)

/-- A JSON value, the shape JsonOutputParser produces. -/
inductive JValue where
  | null
  | num (n : Int)
  | str (s : String)
  | obj (fields : List (String × JValue))

/-- The prompt rendered by the template of ResumeRAG._get_prompt_template
(RAG.py lines 88-117): fixed boilerplate around three substituted slots.
Only the slots are represented, since the boilerplate text affects no
behaviour of the program. -/
structure RenderedPrompt where
  context : String
  required_experience : Nat
  required_skills : String

/-- JsonOutputParser as used in the chain of RAG.py lines 144-148: the
model response either contains JSON parsing to a value, which is returned
with no schema validation at all, or it is malformed and an
OutputParserException is raised.  The model and the text-level JSON parse
are abstracted into an oracle returning the parsed value or none. -/
def jsonOutputParse (response : Option JValue) : Except String JValue :=
  match response with
  | some v => Except.ok v
  | none => Except.error "OutputParserException: Invalid json output"

/-- ResumeRAG.rate_candidate (RAG.py lines 119-158): build the query and
context, render the prompt, invoke the model, parse its output with
JsonOutputParser, and return the parsed value as the ratings, with no
check on its keys or on the range of its values. -/
def rate_candidate (retrieve : String → Nat → List Document)
    (llm : RenderedPrompt → Option JValue)
    (required_experience_years : Nat) (required_skills_list : List String) :
    Except String JValue :=
  let required_skills_str := String.intercalate ", " required_skills_list
  let context_text := rate_candidate_context retrieve required_experience_years required_skills_list
  jsonOutputParse (llm ⟨context_text, required_experience_years, required_skills_str⟩)

/-- Field lookup in a JSON object. -/
def jLookup (k : String) : JValue → Option JValue
  | .obj fields => fields.lookup k
  | _ => none

/-- One entry of the embedding index: chunk identity (insertion order),
embedding vector, chunk text. -/
structure IndexEntry where
  id : Nat
  vec : List Int
  text : String

/-- Modelled from the spec: the Embedding Index query state (sections
4.3-4.4).  The vector store (Chroma) is an external library; the index is
modelled as its list of entries. -/
structure RagState where
  index : List IndexEntry

/-- Insert a scored chunk into a list sorted by decreasing score. -/
def insertScored (x : Int × Nat) : List (Int × Nat) → List (Int × Nat)
  | [] => [x]
  | y :: ys => if y.1 < x.1 then x :: y :: ys else y :: insertScored x ys

/-- Sort scored chunks by decreasing score. -/
def sortScored : List (Int × Nat) → List (Int × Nat)
  | [] => []
  | x :: xs => insertScored x (sortScored xs)

/-- Modelled from the spec: the query operation of sections 4.3-4.4.
Embed the query with the configured embedding model, score every stored
chunk with the backend similarity, and return the identities of the K
highest-scoring chunks in decreasing-score order, with a fixed tie-break. -/
def retrieveIds (sim : List Int → List Int → Int) (embed : String → List Int)
    (st : RagState) (query : String) (K : Nat) : List Nat :=
  let q := embed query
  let scored := st.index.map fun e => (sim q e.vec, e.id)
  ((sortScored scored).map Prod.snd).take K

/-- A retrieval call as the caller sees it: the returned chunk identities
together with the index state after the call (retrieval writes nothing,
so the state passes through). -/
def retrieve_step (sim : List Int → List Int → Int) (embed : String → List Int)
    (st : RagState) (query : String) (K : Nat) : List Nat × RagState :=
  (retrieveIds sim embed st query K, st)

/-- get_text_from_pdf (RAG.py lines 173-183): open the PDF and concatenate
the per-page texts in page order; on any exception, print an error line
and return the empty string.  PyMuPDF is abstracted into an oracle giving
the per-page texts or the exception message.  Returns the result string
and the lines printed. -/
def get_text_from_pdf (readPdf : String → Except String (List String))
    (pdf_path : String) : String × List String :=
  match readPdf pdf_path with
  | .ok pages => (pages.foldl (fun full_text page => full_text ++ page) "", [])
  | .error e => ("", ["Error reading PDF " ++ pdf_path ++ ": " ++ e])

/-- Arguments of send_email (email_candidate.py line 35). -/
structure EmailArgs where
  recipient : String
  sender : String
  subject : String
  body : String
deriving DecidableEq

/-- What the Gmail API call chain inside send_email can do: return the
provider message id, raise an HttpError, or raise some other exception
(credential handling and message building are inside the same try block). -/
inductive GmailSendResult where
  | ok (id : String)
  | httpError (msg : String)
  | otherError (msg : String)
deriving DecidableEq

/-- send_email (email_candidate.py lines 35-72): the whole body is one
try/except; HttpError and every other exception are caught and printed.
The function body ends without a return statement, so the Python function
returns None on every path.  Result: the returned value as an Except
(error means an exception escapes to the caller, which never happens
here) paired with the lines printed. -/
def send_email (api : EmailArgs → GmailSendResult) (a : EmailArgs) :
    Except String (Option String) × List String :=
  match api a with
  | .ok i => (Except.ok none, ["✅ Email sent successfully! Message ID: " ++ i])
  | .httpError e => (Except.ok none, ["❌ An error occurred: " ++ e])
  | .otherError e => (Except.ok none, ["An unexpected error occurred: " ++ e])

/-- Does a call outcome consist of an exception reaching the caller? -/
def isRaised : Except String (Option String) → Bool
  | .error _ => true
  | .ok _ => false

/-- The fields a MeetingScheduler instance carries
(meeting_scheduler.py lines 46-51); datetimes are kept as their isoformat
strings, which is all _build_event_body reads from them. -/
structure SchedulerState where
  summary : String
  description : String
  start_time : String
  end_time : String
  attendees : List String
deriving DecidableEq

/-- The event dictionary built by MeetingScheduler._build_event_body
(meeting_scheduler.py lines 55-84). -/
structure EventBody where
  summary : String
  description : String
  startDateTime : String
  startTimeZone : String
  endDateTime : String
  endTimeZone : String
  attendees : List String
  conferenceType : String
  useDefaultReminders : Bool
  reminderOverrides : List (String × Nat)
deriving DecidableEq

/-- The configured timezone (meeting_scheduler.py line 13). -/
def TIMEZONE : String := "Asia/Kolkata"

/-- MeetingScheduler._build_event_body (meeting_scheduler.py lines
55-84). -/
def build_event_body (s : SchedulerState) : EventBody :=
  ⟨s.summary, s.description, s.start_time, TIMEZONE, s.end_time, TIMEZONE,
   s.attendees, "hangoutsMeet", false, [("email", 24 * 60), ("popup", 15)]⟩

/-- The created event object the Calendar API returns, with the fields
schedule reads: the Google Meet link and the calendar view link. -/
structure CreatedEvent where
  hangoutLink : String
  htmlLink : String
deriving DecidableEq

/-- MeetingScheduler.schedule (meeting_scheduler.py lines 86-109): build
the event body, call events().insert(...).execute(); on success return the
created event, on HttpError print the error and return None.  The API call
is an oracle; the instance fields pass through unchanged since the method
never assigns to self. -/
def schedule (api : EventBody → Except String CreatedEvent) (s : SchedulerState) :
    Option CreatedEvent × SchedulerState :=
  match api (build_event_body s) with
  | .ok created_event => (some created_event, s)
  | .error _ => (none, s)

/-- A word character of the regex word-boundary assertion, restricted to
ASCII as all characters of the pattern classes are. -/
def isWordChar (c : Char) : Bool := c.isAlpha || c.isDigit || c == '_'

/-- The local-part character class [A-Za-z0-9._%+-] of the email pattern
(RAG.py line 166). -/
def isLocalChar (c : Char) : Bool :=
  c.isAlpha || c.isDigit || c == '.' || c == '_' || c == '%' || c == '+' || c == '-'

/-- The domain character class [A-Za-z0-9.-] of the email pattern. -/
def isDomainChar (c : Char) : Bool :=
  c.isAlpha || c.isDigit || c == '.' || c == '-'

/-- The top-level-label character class [A-Z|a-z] of the email pattern;
the source class literally includes the bar character. -/
def isTldChar (c : Char) : Bool := c.isAlpha || c == '|'

/-- Word-ness of an optional character; past either end of the text
counts as non-word. -/
def wordAt : Option Char → Bool
  | some c => isWordChar c
  | none => false

/-- The word-boundary assertion between two adjacent positions. -/
def isBoundary (a b : Option Char) : Bool := wordAt a != wordAt b

/-- Can the bounded repetition of the top-level label match exactly t
characters here: t characters of the class are available and a word
boundary follows them. -/
def tldOk (l : List Char) (t : Nat) : Bool :=
  (l.take t).length == t && (l.take t).all isTldChar &&
  isBoundary (l.get? (t - 1)) (l.get? t)

/-- Backtracking of the greedy two-to-seven repetition of the top-level
label: try length t first, then shorter, stopping above length one. -/
def tryTldLen (l : List Char) : Nat → Option Nat
  | 0 => none
  | 1 => none
  | t + 2 => if tldOk l (t + 2) then some (t + 2) else tryTldLen l (t + 1)

/-- Backtracking of the greedy one-or-more domain repetition: with d the
text after the at sign, try domain length j first (the dot of the pattern
must then sit at index j, and the top-level label follows it), then
shorter, stopping above length zero.  Returns the domain length and the
top-level label length. -/
def tryDomain (d : List Char) : Nat → Option (Nat × Nat)
  | 0 => none
  | j + 1 =>
    if d.get? (j + 1) == some '.' then
      match tryTldLen (d.drop (j + 2)) 7 with
      | some t => some (j + 1, t)
      | none => tryDomain d j
    else
      tryDomain d j

/-- One attempt of the email pattern at a fixed position: prev is the
character just before the position, s the text from the position on.
Mirrors the backtracking search of the Python pattern
\x5cb[A-Za-z0-9._%+-]+@[A-Za-z0-9.-]+\x5c.[A-Z|a-z]\x7b2,7\x7d\x5cb at
one start position: the word boundary, then the maximal local run (the
at sign is not a local character, so the greedy local repetition is
forced), the at sign, and the domain/label backtracking.  Returns the
matched characters. -/
def matchAt (prev : Option Char) (s : List Char) : Option (List Char) :=
  let localRun := s.takeWhile isLocalChar
  if localRun.length == 0 then none
  else if !isBoundary prev (s.get? 0) then none
  else
    match s.drop localRun.length with
    | '@' :: d =>
      let m := (d.takeWhile isDomainChar).length
      match tryDomain d (m - 1) with
      | some (j, t) =>
        some (localRun ++ '@' :: (d.take j ++ '.' :: (d.drop (j + 1)).take t))
      | none => none
    | _ => none

/-- The scan of re.search: try the pattern at each position from left to
right, returning the first match. -/
def searchFrom : Option Char → List Char → Option (List Char)
  | prev, [] => matchAt prev []
  | prev, c :: rest =>
    match matchAt prev (c :: rest) with
    | some r => some r
    | none => searchFrom (some c) rest

/-- extract_email_from_text (RAG.py lines 161-170): re.search of the email
pattern over the text, returning the matched substring or None. -/
def extract_email_from_text (text : String) : Option String :=
  (searchFrom none text.toList).map fun l => String.mk l

/-- The character preceding position p of a text whose first character is
preceded by prev; follows the recursion of searchFrom. -/
def preChar (prev : Option Char) : List Char → Nat → Option Char
  | _, 0 => prev
  | [], _ + 1 => prev
  | c :: rest, p + 1 => preChar (some c) rest p

/-- The email pattern tried at position p of a text, as a match on the
original string: what re.search consults at each scan position. -/
def emailMatchAt (text : String) (p : Nat) : Option String :=
  (matchAt (preChar none text.toList p) (text.toList.drop p)).map fun l => String.mk l

/-- The value a Python caller receives from a call outcome, when no
exception was raised. -/
def returnedId : Except String (Option String) → Option String
  | .ok v => v
  | .error _ => none

theorem ldff_append (xs ys : List FileEntry) :
    load_documents_from_folder (xs ++ ys)
      = ((load_documents_from_folder xs).1 ++ (load_documents_from_folder ys).1,
         (load_documents_from_folder xs).2 ++ (load_documents_from_folder ys).2) := by
  induction xs with
  | nil => simp [load_documents_from_folder]
  | cons e rest ih => simp [load_documents_from_folder, ih, List.append_assoc]

theorem processEntry_unsupported (e : FileEntry) (h : isSupportedFile e.filename = false) :
    processEntry e = ([], ["Unsupported file type skipped: " ++ e.filename]) := by
  simp only [isSupportedFile, Bool.or_eq_false_iff] at h
  simp [processEntry, h.1, h.2]

theorem processEntry_err_docs (e : FileEntry) (m : String)
    (hm : e.outcome = LoadOutcome.err m) : (processEntry e).1 = [] := by
  cases h1 : endswith e.filename ".pdf" <;> cases h2 : endswith e.filename ".docx" <;>
    simp [processEntry, hm, h1, h2]

theorem processEntry_err_sup (e : FileEntry) (m : String)
    (hm : e.outcome = LoadOutcome.err m) (hs : isSupportedFile e.filename = true) :
    processEntry e = ([], ["Error loading file " ++ e.filename ++ ": " ++ m]) := by
  simp only [isSupportedFile, Bool.or_eq_true] at hs
  cases h1 : endswith e.filename ".pdf"
  · cases h2 : endswith e.filename ".docx"
    · rw [h1, h2] at hs; simp at hs
    · simp [processEntry, hm, h1, h2]
  · simp [processEntry, hm, h1]

theorem load_documents_refines (entries : List FileEntry) :
    (load_documents_from_folder entries).1 = loadedDocsSpec entries := by
  induction entries with
  | nil => rfl
  | cons e rest ih =>
    have hpe : (processEntry e).1
        = (if isSupportedFile e.filename then
            match e.outcome with
            | .ok ds => ds
            | .err _ => []
          else ([] : List Document)) := by
      cases h1 : endswith e.filename ".pdf" <;> cases h2 : endswith e.filename ".docx" <;>
        cases ho : e.outcome <;> simp [processEntry, isSupportedFile, h1, h2, ho]
    simp [load_documents_from_folder, loadedDocsSpec, hpe, ih]

theorem all_unsupported_no_docs : ∀ entries : List FileEntry,
    (∀ e ∈ entries, isSupportedFile e.filename = false) →
    (load_documents_from_folder entries).1 = [] := by
  intro entries
  induction entries with
  | nil => intro _; rfl
  | cons e rest ih =>
    intro h
    have he := h e (List.mem_cons_self e rest)
    have hr : ∀ x ∈ rest, isSupportedFile x.filename = false :=
      fun x hx => h x (List.mem_cons_of_mem e hx)
    simp [load_documents_from_folder, processEntry_unsupported e he, ih hr]

/-- Claim C2: if enumerating the input directory yields no loadable
document, and in particular if the directory holds only unsupported file
types, then pipeline construction fails with the NoDocumentsFound
condition and no vector index is built. -/
theorem pipeline_requires_documents :
    (∀ entries : List FileEntry, (load_documents_from_folder entries).1 = [] →
        load_and_process_documents entries = Except.error PipelineError.NoDocumentsFound)
    ∧ (∀ entries : List FileEntry, (∀ e ∈ entries, isSupportedFile e.filename = false) →
        load_and_process_documents entries = Except.error PipelineError.NoDocumentsFound) := by
  have key : ∀ entries : List FileEntry, (load_documents_from_folder entries).1 = [] →
      load_and_process_documents entries = Except.error PipelineError.NoDocumentsFound := by
    intro entries h
    simp [load_and_process_documents, h]
  exact ⟨key, fun entries h => key entries (all_unsupported_no_docs entries h)⟩

/-- Claim C2 witness: a directory holding a single text file, whose
loader even has documents to offer, still fails pipeline construction
because the file is skipped as unsupported. -/
theorem pipeline_requires_documents_witness :
    load_and_process_documents
        [⟨"resume.txt", LoadOutcome.ok [⟨"resume.txt", "ten years of Python"⟩]⟩]
      = Except.error PipelineError.NoDocumentsFound :=
  pipeline_requires_documents.2
    [⟨"resume.txt", LoadOutcome.ok [⟨"resume.txt", "ten years of Python"⟩]⟩]
    (by decide)

/-- Claim C5: the loader result consists of the documents of every
successfully loaded file; an unsupported entry contributes nothing but a
logged notice; an entry whose loader raises contributes nothing but a
logged error when supported, and in neither case is any other entry lost. -/
theorem loader_skips_bad_files :
    (∀ entries, (load_documents_from_folder entries).1 = loadedDocsSpec entries)
    ∧ (∀ pre post (e : FileEntry), isSupportedFile e.filename = false →
        (load_documents_from_folder (pre ++ e :: post)).1
            = (load_documents_from_folder pre).1 ++ (load_documents_from_folder post).1
        ∧ ("Unsupported file type skipped: " ++ e.filename)
            ∈ (load_documents_from_folder (pre ++ e :: post)).2)
    ∧ (∀ pre post (e : FileEntry) (m : String), e.outcome = LoadOutcome.err m →
        (load_documents_from_folder (pre ++ e :: post)).1
            = (load_documents_from_folder pre).1 ++ (load_documents_from_folder post).1
        ∧ (isSupportedFile e.filename = true →
            ("Error loading file " ++ e.filename ++ ": " ++ m)
              ∈ (load_documents_from_folder (pre ++ e :: post)).2)) := by
  refine ⟨load_documents_refines, ?_, ?_⟩
  · intro pre post e h
    rw [ldff_append]
    constructor
    · simp [load_documents_from_folder, processEntry_unsupported e h]
    · simp [load_documents_from_folder, processEntry_unsupported e h]
  · intro pre post e m hm
    rw [ldff_append]
    constructor
    · simp [load_documents_from_folder, processEntry_err_docs e m hm]
    · intro hs
      simp [load_documents_from_folder, processEntry_err_sup e m hm hs]

/-- Claim C5 witness: a lone unsupported file is skipped with a notice and
contributes no documents. -/
theorem loader_skips_bad_files_witness :
    (load_documents_from_folder
        ([] ++ (⟨"notes.txt", LoadOutcome.ok []⟩ : FileEntry) :: [])).1
        = (load_documents_from_folder []).1 ++ (load_documents_from_folder []).1
    ∧ ("Unsupported file type skipped: " ++ (⟨"notes.txt", LoadOutcome.ok []⟩ : FileEntry).filename)
        ∈ (load_documents_from_folder
            ([] ++ (⟨"notes.txt", LoadOutcome.ok []⟩ : FileEntry) :: [])).2 :=
  loader_skips_bad_files.2.1 [] [] ⟨"notes.txt", LoadOutcome.ok []⟩ (by decide)

/-- Claim C6: rate_candidate retrieves with K = 5, and the retrieved
chunks are concatenated into the prompt context in returned order,
separated by blank lines; duplicated or overlapping chunk text is kept
verbatim, as the doubled-document retriever shows. -/
theorem rate_candidate_context_spec :
    (∀ (retrieve : String → Nat → List Document) (years : Nat) (skills : List String),
        rate_candidate_context retrieve years skills
          = String.intercalate "\n\n"
              ((retrieve (retriever_query years skills) 5).map Document.page_content))
    ∧ (∀ d : Document,
        rate_candidate_context (fun _ _ => [d, d]) 0 []
          = d.page_content ++ "\n\n" ++ d.page_content) :=
  ⟨fun _ _ _ => rfl, fun _ => rfl⟩

/-- Claim C7: get_text_from_pdf returns the concatenation of the per-page
texts in page order when the PDF opens, and logs the failure and returns
the empty string when opening or extraction raises. -/
theorem get_text_from_pdf_total (readPdf : String → Except String (List String))
    (pdf_path : String) :
    (∀ pages, readPdf pdf_path = Except.ok pages →
        get_text_from_pdf readPdf pdf_path = (String.join pages, []))
    ∧ (∀ e, readPdf pdf_path = Except.error e →
        get_text_from_pdf readPdf pdf_path
          = ("", ["Error reading PDF " ++ pdf_path ++ ": " ++ e])) := by
  constructor
  · intro pages h
    simp [get_text_from_pdf, h, String.join]
  · intro e h
    simp [get_text_from_pdf, h]

/-- Claim C7 witness: a two-page PDF yields the pages joined in order with
nothing logged. -/
theorem get_text_from_pdf_total_witness :
    get_text_from_pdf (fun _ => Except.ok ["page one ", "page two"]) "cv.pdf"
      = (String.join ["page one ", "page two"], []) :=
  (get_text_from_pdf_total (fun _ => Except.ok ["page one ", "page two"]) "cv.pdf").1
    ["page one ", "page two"] rfl

/-- Claim C8: with a fixed index state, query and K, and a deterministic
embedding backend, a retrieval call leaves the index unchanged and a
second call returns the same ordered chunk identities. -/
theorem retrieval_deterministic :
    ∀ (sim : List Int → List Int → Int) (embed : String → List Int)
      (st : RagState) (q : String) (K : Nat),
      (retrieve_step sim embed st q K).2 = st
      ∧ (retrieve_step sim embed (retrieve_step sim embed st q K).2 q K).1
          = (retrieve_step sim embed st q K).1 :=
  fun _ _ _ _ _ => ⟨rfl, rfl⟩

/-- Claim C9 counterexample: when the Gmail API call raises an HttpError,
send_email catches it and returns normally, and even when the API call
succeeds with a provider message id, the caller receives None, not the
id. -/
theorem send_email_counterexample :
    isRaised (send_email (fun _ => GmailSendResult.httpError "HttpError 403: forbidden")
        ⟨"to@x.com", "from@x.com", "Offer", "Hello"⟩).1 = false
    ∧ returnedId (send_email (fun _ => GmailSendResult.ok "mid-123")
        ⟨"to@x.com", "from@x.com", "Offer", "Hello"⟩).1 = none :=
  ⟨rfl, rfl⟩

/-- Claim C9 amended: send_email always returns None and never raises; a
success is reported only by printing a line holding the provider message
id, and HttpError and any other exception are caught and printed, not
propagated. -/
theorem send_email_swallows (api : EmailArgs → GmailSendResult) (a : EmailArgs) :
    (send_email api a).1 = Except.ok none
    ∧ (∀ i, api a = GmailSendResult.ok i →
        ("✅ Email sent successfully! Message ID: " ++ i) ∈ (send_email api a).2)
    ∧ (∀ e, api a = GmailSendResult.httpError e →
        ("❌ An error occurred: " ++ e) ∈ (send_email api a).2)
    ∧ (∀ e, api a = GmailSendResult.otherError e →
        ("An unexpected error occurred: " ++ e) ∈ (send_email api a).2) := by
  refine ⟨?_, ?_, ?_, ?_⟩
  · cases h : api a <;> simp [send_email, h]
  · intro i h; simp [send_email, h]
  · intro e h; simp [send_email, h]
  · intro e h; simp [send_email, h]

/-- Claim C9 amended witness: a successful send returns None and prints
the message id line. -/
theorem send_email_swallows_witness :
    (send_email (fun _ => GmailSendResult.ok "mid-123")
        ⟨"to@x.com", "from@x.com", "Offer", "Hello"⟩).1 = Except.ok none
    ∧ ("✅ Email sent successfully! Message ID: " ++ "mid-123")
        ∈ (send_email (fun _ => GmailSendResult.ok "mid-123")
            ⟨"to@x.com", "from@x.com", "Offer", "Hello"⟩).2 :=
  ⟨(send_email_swallows _ _).1, (send_email_swallows _ _).2.1 "mid-123" rfl⟩

/-- Claim C10: schedule returns the created event when the Calendar API
call succeeds and None when it raises an HttpError, which it never
propagates, and the scheduler fields pass through unchanged in both
cases. -/
theorem schedule_catches_http_error (api : EventBody → Except String CreatedEvent)
    (s : SchedulerState) :
    (schedule api s).2 = s
    ∧ (∀ ev, api (build_event_body s) = Except.ok ev → (schedule api s).1 = some ev)
    ∧ (∀ e, api (build_event_body s) = Except.error e → (schedule api s).1 = none) := by
  refine ⟨?_, ?_, ?_⟩
  · cases h : api (build_event_body s) <;> simp [schedule, h]
  · intro ev hev; simp [schedule, hev]
  · intro e he; simp [schedule, he]

/-- Claim C10 witness: a concrete scheduler whose API call succeeds gets
the created event back with its fields unchanged, and one whose API call
raises an HttpError gets None with its fields unchanged. -/
theorem schedule_catches_http_error_witness :
    (schedule (fun _ => Except.ok ⟨"https://meet.google.com/abc", "https://cal.google.com/xyz"⟩)
        ⟨"Interview", "Round 1", "2025-08-05T14:00:00+05:30", "2025-08-05T15:30:00+05:30",
         ["cand@x.com"]⟩).1
      = some ⟨"https://meet.google.com/abc", "https://cal.google.com/xyz"⟩
    ∧ (schedule (fun _ => Except.error "HttpError 500")
        ⟨"Interview", "Round 1", "2025-08-05T14:00:00+05:30", "2025-08-05T15:30:00+05:30",
         ["cand@x.com"]⟩).2
      = ⟨"Interview", "Round 1", "2025-08-05T14:00:00+05:30", "2025-08-05T15:30:00+05:30",
         ["cand@x.com"]⟩ :=
  ⟨(schedule_catches_http_error _ _).2.1 _ rfl, (schedule_catches_http_error _ _).1⟩

/-- Claim C1: rate_candidate returns whatever JSON the model response
parses to, with no key or range validation: a response missing
skills_rating is returned as a partial result, a work_ex_rating of 15 is
returned although it lies outside [0, 10], and a malformed response
surfaces as the parser exception of the library, not as a distinct
RatingParseError; the guarded behaviour the specification demands is
absent from the code. -/
theorem rate_candidate_unguarded_parse :
    (rate_candidate (fun _ _ => [])
        (fun _ => some (JValue.obj [("work_ex_rating", JValue.num 7)])) 3 ["Python"]
      = Except.ok (JValue.obj [("work_ex_rating", JValue.num 7)]))
    ∧ jLookup "skills_rating" (JValue.obj [("work_ex_rating", JValue.num 7)]) = none
    ∧ (rate_candidate (fun _ _ => [])
        (fun _ => some (JValue.obj
          [("work_ex_rating", JValue.num 15), ("skills_rating", JValue.num 3)])) 3 ["Python"]
      = Except.ok (JValue.obj
          [("work_ex_rating", JValue.num 15), ("skills_rating", JValue.num 3)]))
    ∧ jLookup "work_ex_rating" (JValue.obj
          [("work_ex_rating", JValue.num 15), ("skills_rating", JValue.num 3)])
        = some (JValue.num 15)
    ∧ ¬ ((15 : Int) ≤ 10)
    ∧ (rate_candidate (fun _ _ => []) (fun _ => none) 3 ["Python"]
      = Except.error "OutputParserException: Invalid json output") :=
  ⟨rfl, rfl, rfl, rfl, by decide, rfl⟩

theorem matchAt_nil (prev : Option Char) : matchAt prev [] = none := rfl

theorem preChar_nil (prev : Option Char) (p : Nat) : preChar prev [] p = prev := by
  cases p <;> rfl

theorem searchFrom_eq_none_iff (s : List Char) : ∀ prev,
    searchFrom prev s = none ↔ ∀ p, matchAt (preChar prev s p) (s.drop p) = none := by
  induction s with
  | nil =>
    intro prev
    constructor
    · intro _ p
      rw [preChar_nil, List.drop_nil, matchAt_nil]
    · intro _
      rfl
  | cons c rest ih =>
    intro prev
    cases h : matchAt prev (c :: rest) with
    | some r =>
      constructor
      · intro hs
        simp [searchFrom, h] at hs
      · intro hall
        have h0 : matchAt prev (c :: rest) = none := hall 0
        rw [h] at h0
        exact absurd h0 (by simp)
    | none =>
      have hs : searchFrom prev (c :: rest) = searchFrom (some c) rest := by
        simp [searchFrom, h]
      rw [hs, ih (some c)]
      constructor
      · intro hall p
        cases p with
        | zero => exact h
        | succ p => exact hall p
      · intro hall p
        exact hall (p + 1)

theorem searchFrom_eq_some (s : List Char) : ∀ prev r,
    searchFrom prev s = some r →
    ∃ p, matchAt (preChar prev s p) (s.drop p) = some r
      ∧ ∀ q < p, matchAt (preChar prev s q) (s.drop q) = none := by
  induction s with
  | nil =>
    intro prev r h
    simp [searchFrom, matchAt_nil] at h
  | cons c rest ih =>
    intro prev r h
    cases hm : matchAt prev (c :: rest) with
    | some r0 =>
      have hr : r0 = r := by
        simp only [searchFrom, hm] at h
        exact Option.some.inj h
      subst hr
      exact ⟨0, hm, fun q hq => absurd hq (Nat.not_lt_zero q)⟩
    | none =>
      have h2 : searchFrom (some c) rest = some r := by
        simpa only [searchFrom, hm] using h
      obtain ⟨p, hp, hfirst⟩ := ih (some c) r h2
      refine ⟨p + 1, hp, ?_⟩
      intro q hq
      cases q with
      | zero => exact hm
      | succ q => exact hfirst q (Nat.lt_of_succ_lt_succ hq)

/-- Claim C4: extract_email_from_text returns the match of the embedded
email pattern at the first position where one exists, None exactly when
the pattern matches at no position, and on the sample text it returns the
sample address; it is a pure function of its input by construction. -/
theorem extract_email_first_match :
    extract_email_from_text "Contact: jane.doe+hr@example.co.uk for info"
        = some "jane.doe+hr@example.co.uk"
    ∧ (∀ text : String,
        extract_email_from_text text = none ↔ ∀ p, emailMatchAt text p = none)
    ∧ (∀ text r : String, extract_email_from_text text = some r →
        ∃ p, emailMatchAt text p = some r ∧ ∀ q < p, emailMatchAt text q = none) := by
  refine ⟨by decide, ?_, ?_⟩
  · intro text
    unfold extract_email_from_text emailMatchAt
    rw [Option.map_eq_none', searchFrom_eq_none_iff]
    constructor
    · intro hall p
      rw [hall p]
      rfl
    · intro hall p
      have := hall p
      rwa [Option.map_eq_none'] at this
  · intro text r h
    unfold extract_email_from_text at h
    rw [Option.map_eq_some'] at h
    obtain ⟨l, hl, hr⟩ := h
    obtain ⟨p, hp, hfirst⟩ := searchFrom_eq_some _ _ _ hl
    refine ⟨p, ?_, ?_⟩
    · unfold emailMatchAt
      rw [hp]
      simp [hr]
    · intro q hq
      unfold emailMatchAt
      rw [hfirst q hq]
      rfl

/-- Claim C4 witness: on the sample text the match sits at some position
with no match at any earlier position. -/
theorem extract_email_first_match_witness :
    ∃ p, emailMatchAt "Contact: jane.doe+hr@example.co.uk for info" p
        = some "jane.doe+hr@example.co.uk"
      ∧ ∀ q < p, emailMatchAt "Contact: jane.doe+hr@example.co.uk for info" q = none :=
  extract_email_first_match.2.2 _ _ extract_email_first_match.1

theorem ceilDiv_le_one (a b : Nat) (hb : 0 < b) (h : a ≤ b) : ceilDiv a b ≤ 1 := by
  have h3 : (a + b - 1) / b < 2 := (Nat.div_lt_iff_lt_mul hb).mpr (by omega)
  simp only [ceilDiv]
  omega

theorem ceilDiv_sub_add (a b : Nat) (hb : 0 < b) (h : b ≤ a) :
    ceilDiv a b = ceilDiv (a - b) b + 1 := by
  have he : a + b - 1 = (a - b + b - 1) + b := by omega
  simp only [ceilDiv]
  rw [he, Nat.add_div_right _ hb]

theorem chunkTextGo_count : ∀ (fuel C O : Nat), O < C → ∀ s : List Char, s.length ≤ fuel →
    ceilDiv (s.length - O) (C - O) ≤ (chunkTextGo fuel C O s).length
    ∧ ∀ c ∈ chunkTextGo fuel C O s, c.length ≤ C := by
  intro fuel
  induction fuel with
  | zero =>
    intro C O hO s hs
    have hnil : s = [] := List.eq_nil_of_length_eq_zero (Nat.le_zero.mp hs)
    subst hnil
    constructor
    · simp only [chunkTextGo, List.length_singleton, List.length_nil]
      exact ceilDiv_le_one _ _ (by omega) (by omega)
    · intro c hc
      simp only [chunkTextGo, List.mem_singleton] at hc
      subst hc
      simp
  | succ fuel ih =>
    intro C O hO s hs
    by_cases hc : s.length ≤ C
    · have hred : chunkTextGo (fuel + 1) C O s = [s] := by
        rw [chunkTextGo]
        exact if_pos (Or.inl hc)
      rw [hred]
      constructor
      · simp only [List.length_singleton]
        exact ceilDiv_le_one _ _ (by omega) (by omega)
      · intro c hcm
        rw [List.mem_singleton] at hcm
        subst hcm
        exact hc
    · have hcond : ¬ (s.length ≤ C ∨ C ≤ O) := by omega
      have hred : chunkTextGo (fuel + 1) C O s
          = s.take C :: chunkTextGo fuel C O (s.drop (C - O)) := by
        rw [chunkTextGo]
        exact if_neg hcond
      have hlen : (s.drop (C - O)).length ≤ fuel := by
        simp only [List.length_drop]
        omega
      obtain ⟨ih1, ih2⟩ := ih C O hO (s.drop (C - O)) hlen
      rw [hred]
      constructor
      · simp only [List.length_cons]
        rw [List.length_drop] at ih1
        have key : ceilDiv (s.length - O) (C - O)
            = ceilDiv (s.length - (C - O) - O) (C - O) + 1 := by
          have hstep := ceilDiv_sub_add (s.length - O) (C - O) (by omega) (by omega)
          have harg : s.length - O - (C - O) = s.length - (C - O) - O := by omega
          rw [hstep, harg]
        rw [key]
        omega
      · intro c hcm
        rcases List.mem_cons.mp hcm with h1 | h2
        · subst h1
          simp only [List.length_take]
          omega
        · exact ih2 c h2

set_option maxRecDepth 8000 in
/-- Claim C3 counterexample: with the default chunk size 1000 and overlap
200, a document of exactly 1000 characters is produced as one single
chunk, while the claimed lower bound ceil(1000 / (1000 - 200)) equals 2. -/
theorem chunk_count_claim_counterexample :
    ¬ (ceilDiv (List.replicate 1000 'a').length (1000 - 200)
        ≤ (chunkText 1000 200 (List.replicate 1000 'a')).length) := by decide

/-- Claim C3 amended: for every document of length L chunked with chunk
size C and overlap O where O < C, the chunker produces at least
ceil((L - O) / (C - O)) chunks, and no chunk holds more than C
characters. -/
theorem chunkText_bounds (C O : Nat) (s : List Char) (hO : O < C) :
    ceilDiv (s.length - O) (C - O) ≤ (chunkText C O s).length
    ∧ ∀ c ∈ chunkText C O s, c.length ≤ C :=
  chunkTextGo_count s.length C O hO s (Nat.le_refl _)

/-- Claim C3 amended witness: an eight-character text chunked with size 5
and overlap 2 satisfies both bounds. -/
theorem chunkText_bounds_witness :
    ceilDiv ((String.toList "abcdefgh").length - 2) (5 - 2)
        ≤ (chunkText 5 2 (String.toList "abcdefgh")).length
    ∧ ∀ c ∈ chunkText 5 2 (String.toList "abcdefgh"), c.length ≤ 5 :=
  chunkText_bounds 5 2 (String.toList "abcdefgh") (by omega)
